import Mathlib

/-!
Verification development for the HalgoraeDO task service
(src/server/src/services/task.js), the task routes, and the client user
store (Vuex module).  The service operates on a relational database through
Sequelize; we embed the rows the service touches (tasks, sections, projects)
as an explicit state `DB` and each service function as a state-passing Lean
function returning `Except Err` results.

Transaction semantics follow default (non-CLS) Sequelize: a query executed
with the option `{ transaction: t }` is buffered in transaction `t` and is
undone by `t.rollback()`, while a query executed without that option runs on
its own connection and is committed immediately, surviving a later rollback.
This distinction matters only in `update`, where `task.update({ dueDate,
...rest })` is issued without the transaction option.
-/

namespace HalgoraeDO

/-- A task row.  `labels` models the many-to-many label association rows
attached to the task (`task.setLabels` replaces them wholesale).  The
remaining updatable columns are represented by `title`, `isDone`,
`position` and `dueDate`; the other include-only associations (priority,
alarm, bookmarks) carry no claim-relevant behaviour. -/
structure Task where
  id : Nat
  title : String
  isDone : Bool
  position : Int
  dueDate : Option String
  sectionId : Nat
  projectId : Nat
  parentTaskId : Option Nat
  labels : List Nat
deriving Repr, DecidableEq

/-- A project row: `creatorId` is the owner used by every authorization
check. -/
structure Project where
  id : Nat
  creatorId : Nat
deriving Repr, DecidableEq

/-- A section row: belongs to one project. -/
structure Section where
  id : Nat
  projectId : Nat
deriving Repr, DecidableEq

/-- The database state the task service reads and writes. -/
structure DB where
  tasks : List Task
  sections : List Section
  projects : List Project
deriving Repr, DecidableEq

namespace errorCode

/-- Modelled from the spec: `@utils/error-codes` is not among the source
files; the spec's external-interface section fixes the surfaced statuses as
404 (not found), 403 (forbidden), 400 (bad request / wrong relation). -/
def NOT_FOUND_ERROR : Nat := 404

/-- Modelled from the spec: the Forbidden status code, 403. -/
def FORBIDDEN_ERROR : Nat := 403

/-- Modelled from the spec: the Bad Request status code, 400. -/
def BAD_REQUEST_ERROR : Nat := 400

end errorCode

/-- Modelled from the spec: `@utils/error-messages` is not among the source
files; the spec names three error kinds (NotFoundError, ForbiddenError,
BadRequestError for the section/project relation mismatch).  Each message
constructor used by the service is represented by the corresponding kind;
`FORBIDDEN_ERROR('section')` at create's section-ownership check is the
Forbidden message.  `parseFailure` stands for the SyntaxError thrown by
`JSON.parse`, which carries no `status` field. -/
inductive ErrMsg
  | notFound (resource : String)
  | forbidden
  | wrongRelation (resources : String)
  | parseFailure
deriving Repr, DecidableEq

/-- A thrown error: the service sets `status` explicitly on the errors it
constructs; errors raised by the runtime (`JSON.parse`) have none. -/
structure Err where
  message : ErrMsg
  status : Option Nat
deriving Repr, DecidableEq

/-- `findByPk` on the task model. -/
def findTask (db : DB) (id : Nat) : Option Task :=
  db.tasks.find? (fun t => t.id == id)

/-- `findByPk` on the section model. -/
def findSection (db : DB) (id : Nat) : Option Section :=
  db.sections.find? (fun s => s.id == id)

/-- `findByPk` on the project model. -/
def findProject (db : DB) (id : Nat) : Option Project :=
  db.projects.find? (fun p => p.id == id)

/-- Modelled from the spec: `@services/authorization-check` is not among the
source files; the spec describes each predicate as resolving the owning
chain (project itself) and comparing `creatorId` with the requesting user. -/
def isProjectOwner (db : DB) (id userId : Nat) : Bool :=
  match findProject db id with
  | some p => p.creatorId == userId
  | none => false

/-- Modelled from the spec: section → project → creatorId = userId. -/
def isSectionOwner (db : DB) (id userId : Nat) : Bool :=
  match findSection db id with
  | some s => isProjectOwner db s.projectId userId
  | none => false

/-- Modelled from the spec: task → owning project → creatorId = userId. -/
def isTaskOwner (db : DB) (id userId : Nat) : Bool :=
  match findTask db id with
  | some t => isProjectOwner db t.projectId userId
  | none => false

/-- The sub-task rows of a task: the self-association include
(`model: taskModel`) joins tasks whose `parentTaskId` is this task's id. -/
def subtaskRows (db : DB) (id : Nat) : List Task :=
  db.tasks.filter (fun c => c.parentTaskId == some id)

/-- Position comparison used by the `position ASC` order on the included
sub-task model. -/
def posLe (a b : Task) : Prop := a.position ≤ b.position

instance : DecidableRel posLe := fun a b =>
  inferInstanceAs (Decidable (a.position ≤ b.position))

instance : IsTotal Task posLe := ⟨fun a b => le_total a.position b.position⟩

instance : IsTrans Task posLe := ⟨fun _ _ _ h1 h2 => le_trans h1 h2⟩

/-- A task row together with its joined sub-task rows, as the nested
include returns it. -/
structure TaskWithSubs where
  task : Task
  subtasks : List Task
deriving Repr, DecidableEq

/-- The `ORDER BY subtask.position ASC` key of a parent row in the joined
result set: the least position among its sub-task rows, `none` when the
LEFT OUTER JOIN contributes only a NULL row. -/
def joinKey (db : DB) (t : Task) : Option Int :=
  ((subtaskRows db t.id).map Task.position).min?

/-- SQL ascending comparison on the join key: NULL sorts first. -/
def nullFirstLe : Option Int → Option Int → Prop
  | none, _ => True
  | some _, none => False
  | some a, some b => a ≤ b

instance : DecidableRel nullFirstLe := fun a b =>
  match a, b with
  | none, _ => .isTrue trivial
  | some _, none => .isFalse (fun h => h)
  | some x, some y => inferInstanceAs (Decidable (x ≤ y))

/-- Ordering of the top-level rows induced by the order clause
`[[taskModel, 'position', 'ASC']]`, which targets the included sub-task
model's column, not the top-level task's own `position`. -/
def joinOrderLe (db : DB) (a b : Task) : Prop :=
  nullFirstLe (joinKey db a) (joinKey db b)

instance (db : DB) : DecidableRel (joinOrderLe db) := fun a b =>
  inferInstanceAs (Decidable (nullFirstLe (joinKey db a) (joinKey db b)))

/-- The row filter of `retrieveAll`: `where: { isDone: false }` plus the
inner join on the project include `where: { creatorId: userId }`. -/
def ownedNotDone (db : DB) (userId : Nat) (t : Task) : Bool :=
  !t.isDone &&
    (match findProject db t.projectId with
     | some p => p.creatorId == userId
     | none => false)

/-- `retrieveAll(userId)`: all not-done tasks whose project's creator is
`userId`, each with its sub-task rows; sub-tasks are sorted by the order
clause, and the top-level rows come out in the joined result's order
(stable on ties, NULL-keyed rows first). -/
def retrieveAll (db : DB) (userId : Nat) : List TaskWithSubs :=
  (((db.tasks.filter (ownedNotDone db userId)).insertionSort (joinOrderLe db)).map
    (fun t => ⟨t, (subtaskRows db t.id).insertionSort posLe⟩))

/-- `retrieveById({id, userId})`: load-or-NotFound, then the ownership
check, then the populated row. -/
def retrieveById (db : DB) (id userId : Nat) : Except Err TaskWithSubs :=
  match findTask db id with
  | none => .error ⟨.notFound "task", some errorCode.NOT_FOUND_ERROR⟩
  | some task =>
    if !(isTaskOwner db id userId) then
      .error ⟨.forbidden, some errorCode.FORBIDDEN_ERROR⟩
    else
      .ok ⟨task, (subtaskRows db id).insertionSort posLe⟩

/-- The fresh primary key Sequelize assigns on insert. -/
def nextId (db : DB) : Nat := db.tasks.foldl (fun m t => max m t.id) 0 + 1

/-- The arguments of `create`: `projectId`, `sectionId`, `userId` are
destructured explicitly; `taskData`'s remaining fields (`...rest`, spread
after the computed `position`) are `title`, `parentTaskId` and an optional
caller-supplied `position`, alongside the explicitly handled `dueDate`
and `labelIdList`. -/
structure CreateInput where
  projectId : Nat
  sectionId : Nat
  userId : Nat
  title : String
  dueDate : Option String
  parentTaskId : Option Nat
  position : Option Int
  labelIdList : Option String
deriving Repr, DecidableEq

/-- `create`: project existence and ownership checks outside the
transaction, then, inside the transaction, section existence, section
ownership (throwing with the NOT_FOUND status code), the project/section
relation check, the max-sibling-position fold (initial value 0), the
insert (where `...rest` overrides the computed `position` when the caller
supplies one), and the optional label association.  Every write inside the
transaction carries `{ transaction: t }`, so an error leaves the state as
it was and is re-raised. -/
def create (parse : String → Option (List Nat)) (db : DB) (inp : CreateInput) :
    Except Err Bool × DB :=
  match findProject db inp.projectId with
  | none => (.error ⟨.notFound "project", some errorCode.NOT_FOUND_ERROR⟩, db)
  | some _ =>
  if !(isProjectOwner db inp.projectId inp.userId) then
    (.error ⟨.forbidden, some errorCode.FORBIDDEN_ERROR⟩, db)
  else
  match findSection db inp.sectionId with
  | none => (.error ⟨.notFound "section", some errorCode.NOT_FOUND_ERROR⟩, db)
  | some sec =>
  if !(isSectionOwner db inp.sectionId inp.userId) then
    (.error ⟨.forbidden, some errorCode.NOT_FOUND_ERROR⟩, db)
  else if sec.projectId != inp.projectId then
    (.error ⟨.wrongRelation "project, section", some errorCode.BAD_REQUEST_ERROR⟩, db)
  else
  let maxPosition := (db.tasks.filter (fun t => t.sectionId == inp.sectionId)).foldl
      (fun m t => max m t.position) 0
  let newTask : Task :=
    { id := nextId db
      title := inp.title
      isDone := false
      position := inp.position.getD (maxPosition + 1)
      dueDate := inp.dueDate
      sectionId := inp.sectionId
      projectId := inp.projectId
      parentTaskId := inp.parentTaskId
      labels := [] }
  match inp.labelIdList with
  | some s =>
    if s != "" then
      match parse s with
      | none => (.error ⟨.parseFailure, none⟩, db)
      | some ids =>
        (.ok true, { db with tasks := db.tasks ++ [{ newTask with labels := ids }] })
    else (.ok true, { db with tasks := db.tasks ++ [newTask] })
  | none => (.ok true, { db with tasks := db.tasks ++ [newTask] })

/-- The arguments of `update`: `id`, `labelIdList`, `dueDate`, `userId`
are destructured explicitly; the remaining updatable columns (`...rest`)
are `title`, `isDone`, `position`. -/
structure UpdateInput where
  id : Nat
  userId : Nat
  labelIdList : Option String
  dueDate : Option String
  title : Option String
  isDone : Option Bool
  position : Option Int
deriving Repr, DecidableEq

/-- `task.update({ dueDate, ...rest })`: fields present in the payload are
set, absent (undefined) fields are left unchanged. -/
def mergeFields (inp : UpdateInput) (t : Task) : Task :=
  { t with
    title := inp.title.getD t.title
    isDone := inp.isDone.getD t.isDone
    position := inp.position.getD t.position
    dueDate := match inp.dueDate with | some d => some d | none => t.dueDate }

/-- Rewrite the row with the given id in place. -/
def writeTask (db : DB) (id : Nat) (f : Task → Task) : DB :=
  { db with tasks := db.tasks.map (fun t => if t.id == id then f t else t) }

/-- `update(taskData)`: load-or-NotFound and ownership check inside the
transaction (no writes yet, so their rollback restores nothing); then
`task.update({ dueDate, ...rest })` issued WITHOUT `{ transaction: t }`, so
the field merge commits immediately on its own connection; then the label
association `task.setLabels(JSON.parse(labelIdList), { transaction: t })`,
whose failure (a `JSON.parse` SyntaxError) is caught, triggers
`t.rollback()` — undoing only the transactional writes, not the already
committed field merge — and is re-raised. -/
def update (parse : String → Option (List Nat)) (db : DB) (inp : UpdateInput) :
    Except Err Bool × DB :=
  match findTask db inp.id with
  | none => (.error ⟨.notFound "task", some errorCode.NOT_FOUND_ERROR⟩, db)
  | some _ =>
  if !(isTaskOwner db inp.id inp.userId) then
    (.error ⟨.forbidden, some errorCode.FORBIDDEN_ERROR⟩, db)
  else
  let merged := writeTask db inp.id (mergeFields inp)
  match inp.labelIdList with
  | some s =>
    if s != "" then
      match parse s with
      | none => (.error ⟨.parseFailure, none⟩, merged)
      | some ids => (.ok true, writeTask merged inp.id (fun t => { t with labels := ids }))
    else (.ok true, merged)
  | none => (.ok true, merged)

/-- `remove(id)`: `taskModel.destroy({ where: { id } })` — no existence or
ownership check; returns the number of destroyed rows together with the
state without them. -/
def remove (db : DB) (id : Nat) : Nat × DB :=
  ((db.tasks.filter (fun t => t.id == id)).length,
   { db with tasks := db.tasks.filter (fun t => t.id != id) })

/-! ## Client user store (Vuex module) -/

/-- The authenticated-user fields held in the store. -/
structure User where
  id : String
  name : String
  email : String
deriving Repr, DecidableEq

/-- The store state: a single `user` record. -/
structure StoreState where
  user : User
deriving Repr, DecidableEq

/-- The store's initial state: empty user fields. -/
def initialState : StoreState := ⟨⟨"", "", ""⟩⟩

/-- Outcome of the awaited `userAPI.authorize()` call: the resolved
`{ data: user }` payload, or a rejection. -/
inductive AuthorizeResult
  | success (user : User)
  | failure
deriving Repr, DecidableEq

/-- The `SET_USER` mutation: replaces `state.user` with exactly the
`id`, `name`, `email` fields of the payload. -/
def SET_USER (s : StoreState) (u : User) : StoreState :=
  { s with user := { id := u.id, name := u.name, email := u.email } }

/-- The alert text shown on authorize failure. -/
def loginFailureAlert : String := "로그인에 실패했습니다."

/-- Observable outcome of a `checkUser` run: the store state, the path the
router ends on, and the alerts raised. -/
structure CheckUserOutcome where
  state : StoreState
  path : String
  alerts : List String
deriving Repr, DecidableEq

/-- The `checkUser` action, as a function of the authorize outcome, the
store state and the current `location.pathname`: on success commit
`SET_USER` then `router.replace` to `/today` when the path is `/` or
`/login` and to the current path otherwise; on failure alert and
`router.replace` to `/login` with no commit. -/
def checkUser (auth : AuthorizeResult) (s : StoreState) (path : String) :
    CheckUserOutcome :=
  match auth with
  | .success u =>
    let s1 := SET_USER s u
    if path == "/" || path == "/login" then ⟨s1, "/today", []⟩
    else ⟨s1, path, []⟩
  | .failure => ⟨s, "/login", [loginFailureAlert]⟩

/-! ## Concrete fixtures for counterexamples and witnesses -/

/-- A parse function for concrete runs, standing in for JSON.parse on
label-id lists: it accepts exactly the literal "[1]". -/
def parseOne : String → Option (List Nat) := fun s => if s = "[1]" then some [1] else none

def taskC1 : Task :=
  { id := 1, title := "a", isDone := false, position := 1, dueDate := none,
    sectionId := 10, projectId := 1, parentTaskId := none, labels := [] }

def dbC1 : DB :=
  { tasks := [taskC1]
    sections := [{ id := 10, projectId := 1 }]
    projects := [{ id := 1, creatorId := 1 }] }

def updC1 : UpdateInput :=
  { id := 1, userId := 1, labelIdList := some "x", dueDate := none,
    title := some "b", isDone := none, position := none }

def taskW4 : Task :=
  { id := 7, title := "t", isDone := false, position := 1, dueDate := none,
    sectionId := 3, projectId := 5, parentTaskId := none, labels := [] }

def projW4 : Project := { id := 5, creatorId := 2 }

def dbW4 : DB :=
  { tasks := [taskW4]
    sections := [{ id := 3, projectId := 5 }]
    projects := [projW4] }

def updW4 : UpdateInput :=
  { id := 7, userId := 1, labelIdList := none, dueDate := none,
    title := some "u", isDone := none, position := none }

def dbW5 : DB :=
  { tasks := [{ id := 1, title := "a", isDone := false, position := 1, dueDate := none,
                sectionId := 3, projectId := 5, parentTaskId := none, labels := [] },
              { id := 2, title := "b", isDone := true, position := 2, dueDate := none,
                sectionId := 3, projectId := 5, parentTaskId := none, labels := [] }]
    sections := [{ id := 3, projectId := 5 }]
    projects := [{ id := 5, creatorId := 2 }] }

def proj11 : Project := { id := 1, creatorId := 1 }

def sec10p2 : Section := { id := 10, projectId := 2 }

def dbC2 : DB :=
  { tasks := []
    sections := [sec10p2]
    projects := [proj11, { id := 2, creatorId := 2 }] }

def cinC2 : CreateInput :=
  { projectId := 1, sectionId := 10, userId := 1, title := "t", dueDate := none,
    parentTaskId := none, position := none, labelIdList := none }

def dbW2 : DB :=
  { tasks := []
    sections := [sec10p2]
    projects := [proj11, { id := 2, creatorId := 1 }] }

def taskC3 : Task :=
  { id := 1, title := "a", isDone := false, position := 1, dueDate := none,
    sectionId := 10, projectId := 1, parentTaskId := none, labels := [] }

def dbC3 : DB :=
  { tasks := [taskC3]
    sections := [{ id := 10, projectId := 1 }]
    projects := [proj11] }

def cinC3 : CreateInput :=
  { projectId := 1, sectionId := 10, userId := 1, title := "t", dueDate := none,
    parentTaskId := none, position := some 42, labelIdList := none }

def cinW3 : CreateInput :=
  { projectId := 1, sectionId := 10, userId := 1, title := "t", dueDate := none,
    parentTaskId := none, position := none, labelIdList := none }

def dbC6 : DB :=
  { tasks := [{ id := 1, title := "a", isDone := false, position := 5, dueDate := none,
                sectionId := 10, projectId := 1, parentTaskId := none, labels := [] },
              { id := 2, title := "b", isDone := false, position := 3, dueDate := none,
                sectionId := 10, projectId := 1, parentTaskId := none, labels := [] }]
    sections := [{ id := 10, projectId := 1 }]
    projects := [proj11] }

def cinC10 : CreateInput :=
  { projectId := 1, sectionId := 10, userId := 1, title := "t", dueDate := none,
    parentTaskId := none, position := none, labelIdList := some "x" }

/-! ## Helper lemmas -/

/-- The initial accumulator bounds a max-fold from below. -/
theorem le_foldl_max_init (l : List Int) : ∀ a : Int, a ≤ l.foldl max a := by
  induction l with
  | nil => intro a; exact le_refl a
  | cons x xs ih =>
    intro a
    simp only [List.foldl_cons]
    exact le_trans (le_max_left a x) (ih (max a x))

/-- Every member bounds a max-fold from below. -/
theorem mem_le_foldl_max (l : List Int) : ∀ (a x : Int), x ∈ l → x ≤ l.foldl max a := by
  induction l with
  | nil => intro a x hx; cases hx
  | cons y ys ih =>
    intro a x hx
    simp only [List.foldl_cons]
    rcases List.mem_cons.mp hx with rfl | h
    · exact le_trans (le_max_right a x) (le_foldl_max_init ys (max a x))
    · exact ih (max a y) x h

/-- A max-fold is bounded by any common upper bound of the accumulator and
the members. -/
theorem foldl_max_le (l : List Int) :
    ∀ (a m : Int), a ≤ m → (∀ x ∈ l, x ≤ m) → l.foldl max a ≤ m := by
  induction l with
  | nil => intro a m ha _; exact ha
  | cons y ys ih =>
    intro a m ha h
    simp only [List.foldl_cons]
    exact ih (max a y) m (max_le ha (h y (List.mem_cons_self y ys)))
      (fun x hx => h x (List.mem_cons_of_mem y hx))

/-- When the owning project's creator is not the requesting user, the
task-ownership predicate is false. -/
theorem isTaskOwner_eq_false (db : DB) (id userId : Nat) (t : Task) (p : Project)
    (ht : findTask db id = some t) (hp : findProject db t.projectId = some p)
    (hne : p.creatorId ≠ userId) : isTaskOwner db id userId = false := by
  unfold isTaskOwner
  rw [ht]
  show isProjectOwner db t.projectId userId = false
  unfold isProjectOwner
  rw [hp]
  show (p.creatorId == userId) = false
  exact beq_eq_false_iff_ne.mpr hne

/-- In a task list with pairwise distinct ids, filtering on the id of a
member keeps exactly one row. -/
theorem length_filter_id_eq_one {l : List Task} {i : Nat}
    (hnd : (l.map Task.id).Nodup) {t : Task} (htl : t ∈ l) (hid : t.id = i) :
    (l.filter (fun x => x.id == i)).length = 1 := by
  induction l with
  | nil => cases htl
  | cons a as ih =>
    rw [List.map_cons, List.nodup_cons] at hnd
    rcases List.mem_cons.mp htl with rfl | hmem
    · rw [List.filter_cons_of_pos (by simpa using hid)]
      have hnil : as.filter (fun x => x.id == i) = [] := by
        apply List.filter_eq_nil_iff.mpr
        intro x hx hxi
        have hxi' : x.id = i := by simpa using hxi
        exact hnd.1 (hid ▸ hxi' ▸ List.mem_map_of_mem Task.id hx)
      simp [hnil]
    · have hne : a.id ≠ i := by
        intro hai
        have hmm : t.id ∈ as.map Task.id := List.mem_map_of_mem Task.id hmem
        rw [hid] at hmm
        rw [hai] at hnd
        exact hnd.1 hmm
      rw [List.filter_cons_of_neg (by simpa using hne)]
      exact ih hnd.2 hmem

/-- A successful create appends exactly one new row to the task table,
and its position is the caller-supplied one when present, and the
sibling-position max-fold (initial accumulator 0) plus one otherwise. -/
theorem create_ok_appends (parse : String → Option (List Nat)) (db : DB)
    (inp : CreateInput) (hok : (create parse db inp).1 = .ok true) :
    ∃ t : Task, (create parse db inp).2.tasks = db.tasks ++ [t] ∧
      t.position = inp.position.getD
        ((db.tasks.filter (fun x => x.sectionId == inp.sectionId)).foldl
          (fun m x => max m x.position) 0 + 1) := by
  unfold create at hok ⊢
  cases hfp : findProject db inp.projectId with
  | none => simp [hfp] at hok
  | some p =>
    cases hip : isProjectOwner db inp.projectId inp.userId with
    | false => simp [hfp, hip] at hok
    | true =>
      cases hfs : findSection db inp.sectionId with
      | none => simp [hfp, hip, hfs] at hok
      | some sec =>
        cases hso : isSectionOwner db inp.sectionId inp.userId with
        | false => simp [hfp, hip, hfs, hso] at hok
        | true =>
          cases hrel : sec.projectId != inp.projectId with
          | true => simp [hfp, hip, hfs, hso, hrel] at hok
          | false =>
            cases hl : inp.labelIdList with
            | none => simp [hfp, hip, hfs, hso, hrel, hl]
            | some s =>
              cases hse : s != "" with
              | false => simp [hfp, hip, hfs, hso, hrel, hl, hse]
              | true =>
                cases hps : parse s with
                | none => simp [hfp, hip, hfs, hso, hrel, hl, hse, hps] at hok
                | some ids => simp [hfp, hip, hfs, hso, hrel, hl, hse, hps]

/-- When the supplied label list is truthy but unparseable, create throws:
every execution path ends in an error. -/
theorem create_error_of_parse_none (parse : String → Option (List Nat)) (db : DB)
    (inp : CreateInput) (s : String) (hl : inp.labelIdList = some s)
    (hne : s ≠ "") (hps : parse s = none) :
    ∃ e : Err, (create parse db inp).1 = .error e := by
  have hb : (s != "") = true := bne_iff_ne.mpr hne
  unfold create
  cases hfp : findProject db inp.projectId with
  | none => simp [hfp]
  | some p =>
    cases hip : isProjectOwner db inp.projectId inp.userId with
    | false => simp [hfp, hip]
    | true =>
      cases hfs : findSection db inp.sectionId with
      | none => simp [hfp, hip, hfs]
      | some sec =>
        cases hso : isSectionOwner db inp.sectionId inp.userId with
        | false => simp [hfp, hip, hfs, hso]
        | true =>
          cases hrel : sec.projectId != inp.projectId with
          | true => simp [hfp, hip, hfs, hso, hrel]
          | false => simp [hfp, hip, hfs, hso, hrel, hl, hb, hps]

/-- When the supplied label list is truthy but unparseable, update throws:
every execution path ends in an error. -/
theorem update_error_of_parse_none (parse : String → Option (List Nat)) (db : DB)
    (inp : UpdateInput) (s : String) (hl : inp.labelIdList = some s)
    (hne : s ≠ "") (hps : parse s = none) :
    ∃ e : Err, (update parse db inp).1 = .error e := by
  have hb : (s != "") = true := bne_iff_ne.mpr hne
  unfold update
  cases hft : findTask db inp.id with
  | none => simp [hft]
  | some t =>
    cases hit : isTaskOwner db inp.id inp.userId with
    | false => simp [hft, hit]
    | true => simp [hft, hit, hl, hb, hps]

/-! ## Claim theorems -/

/-- C1: a failing label-association step does NOT leave the task row as it
was.  At this input the task load and ownership check pass, the field
merge runs — outside the transaction, because `task.update({dueDate,
...rest})` is issued without `{ transaction: t }` — and then
`JSON.parse("x")` throws; the rollback undoes only transactional writes,
so the error is re-raised while the merged title "b" persists. -/
theorem c1_partial_write_persists :
    (update parseOne dbC1 updC1).1 = .error ⟨.parseFailure, none⟩ ∧
    (update parseOne dbC1 updC1).2 ≠ dbC1 ∧
    ((update parseOne dbC1 updC1).2.tasks.map Task.title) = ["b"] ∧
    (dbC1.tasks.map Task.title) = ["a"] := by
  refine ⟨rfl, ?_, rfl, rfl⟩
  decide

/-- C2 (counterexample): in dbC2 the section resolved from sectionId 10
exists and its projectId 2 differs from the supplied projectId 1, yet the
caller (user 1) does not own the section, so create fails at the earlier
section-ownership check with the Forbidden message under the NOT_FOUND
status — not with the wrong-relation Bad Request the claim demands. -/
theorem c2_counterexample :
    findSection dbC2 cinC2.sectionId = some sec10p2 ∧
    sec10p2.projectId ≠ cinC2.projectId ∧
    (create parseOne dbC2 cinC2).1 =
        .error ⟨.forbidden, some errorCode.NOT_FOUND_ERROR⟩ ∧
    (Err.mk .forbidden (some errorCode.NOT_FOUND_ERROR)).status ≠
        some errorCode.BAD_REQUEST_ERROR ∧
    (Err.mk .forbidden (some errorCode.NOT_FOUND_ERROR)).message ≠
        .wrongRelation "project, section" := by
  refine ⟨rfl, by decide, rfl, by decide, by decide⟩

/-- C2 (amended): when the section resolved from sectionId exists, the
caller owns both the supplied project and the section, and the section's
projectId differs from the supplied projectId, create fails with the
wrong-relation Bad Request error (status 400) and writes nothing; when the
caller does not own the section, the earlier ownership check fails first
with a NOT_FOUND-status error instead. -/
theorem c2_amended_wrong_relation (parse : String → Option (List Nat)) (db : DB)
    (inp : CreateInput) (p : Project) (sec : Section)
    (hp : findProject db inp.projectId = some p) (hpc : p.creatorId = inp.userId)
    (hs : findSection db inp.sectionId = some sec)
    (hso : isSectionOwner db inp.sectionId inp.userId = true)
    (hmis : sec.projectId ≠ inp.projectId) :
    (create parse db inp).1 =
        .error ⟨.wrongRelation "project, section", some errorCode.BAD_REQUEST_ERROR⟩ ∧
    (create parse db inp).2 = db := by
  have hpo : isProjectOwner db inp.projectId inp.userId = true := by
    unfold isProjectOwner
    rw [hp]
    show (p.creatorId == inp.userId) = true
    exact beq_iff_eq.mpr hpc
  have hb : (sec.projectId != inp.projectId) = true := bne_iff_ne.mpr hmis
  unfold create
  simp [hp, hpo, hs, hso, hb]

/-- Witness for the amended C2: user 1 owns project 1 (supplied) and
project 2 (owning section 10), and section 10's projectId 2 differs from
the supplied projectId 1, so create fails with the wrong-relation 400. -/
theorem c2_amended_wrong_relation_witness :
    (findProject dbW2 cinC2.projectId = some proj11 ∧
     proj11.creatorId = cinC2.userId ∧
     findSection dbW2 cinC2.sectionId = some sec10p2 ∧
     isSectionOwner dbW2 cinC2.sectionId cinC2.userId = true ∧
     sec10p2.projectId ≠ cinC2.projectId) ∧
    ((create parseOne dbW2 cinC2).1 =
        .error ⟨.wrongRelation "project, section", some errorCode.BAD_REQUEST_ERROR⟩ ∧
     (create parseOne dbW2 cinC2).2 = dbW2) :=
  ⟨⟨by decide, by decide, by decide, by decide, by decide⟩,
   c2_amended_wrong_relation parseOne dbW2 cinC2 proj11 sec10p2
     (by decide) (by decide) (by decide) (by decide) (by decide)⟩

/-- C9: for every call to create where the supplied project exists and is
owned by the caller but the existing section is not owned by the caller,
the thrown error carries the NotFound status code (404), not the
Forbidden code, even though its message is the Forbidden message. -/
theorem c9_unowned_section_not_found_status (parse : String → Option (List Nat))
    (db : DB) (inp : CreateInput) (p : Project) (sec : Section)
    (hp : findProject db inp.projectId = some p) (hpc : p.creatorId = inp.userId)
    (hs : findSection db inp.sectionId = some sec)
    (hso : isSectionOwner db inp.sectionId inp.userId = false) :
    (create parse db inp).1 = .error ⟨.forbidden, some errorCode.NOT_FOUND_ERROR⟩ ∧
    errorCode.NOT_FOUND_ERROR = 404 ∧
    errorCode.NOT_FOUND_ERROR ≠ errorCode.FORBIDDEN_ERROR := by
  have hpo : isProjectOwner db inp.projectId inp.userId = true := by
    unfold isProjectOwner
    rw [hp]
    show (p.creatorId == inp.userId) = true
    exact beq_iff_eq.mpr hpc
  refine ⟨?_, rfl, by decide⟩
  unfold create
  simp [hp, hpo, hs, hso]

/-- Witness for C9: in dbC2, user 1 owns the supplied project 1, while
section 10 belongs to project 2 whose creator is user 2. -/
theorem c9_unowned_section_not_found_status_witness :
    (findProject dbC2 cinC2.projectId = some proj11 ∧
     proj11.creatorId = cinC2.userId ∧
     findSection dbC2 cinC2.sectionId = some sec10p2 ∧
     isSectionOwner dbC2 cinC2.sectionId cinC2.userId = false) ∧
    ((create parseOne dbC2 cinC2).1 =
        .error ⟨.forbidden, some errorCode.NOT_FOUND_ERROR⟩ ∧
     errorCode.NOT_FOUND_ERROR = 404 ∧
     errorCode.NOT_FOUND_ERROR ≠ errorCode.FORBIDDEN_ERROR) :=
  ⟨⟨by decide, by decide, by decide, by decide⟩,
   c9_unowned_section_not_found_status parseOne dbC2 cinC2 proj11 sec10p2
     (by decide) (by decide) (by decide) (by decide)⟩

/-- C10: whenever a labelIdList value is supplied (truthy) but is not a
parseable string, JSON.parse throws and create and update fail with the
raised error, never returning a success boolean. -/
theorem c10_unparseable_label_list (parse : String → Option (List Nat)) (db : DB)
    (cin : CreateInput) (uin : UpdateInput) (s : String)
    (hc : cin.labelIdList = some s) (hu : uin.labelIdList = some s)
    (hne : s ≠ "") (hps : parse s = none) :
    ((∃ e : Err, (create parse db cin).1 = .error e) ∧
      ∀ b : Bool, (create parse db cin).1 ≠ .ok b) ∧
    ((∃ e : Err, (update parse db uin).1 = .error e) ∧
      ∀ b : Bool, (update parse db uin).1 ≠ .ok b) := by
  obtain ⟨e1, he1⟩ := create_error_of_parse_none parse db cin s hc hne hps
  obtain ⟨e2, he2⟩ := update_error_of_parse_none parse db uin s hu hne hps
  refine ⟨⟨⟨e1, he1⟩, ?_⟩, ⟨⟨e2, he2⟩, ?_⟩⟩
  · intro b hb
    rw [he1] at hb
    exact Except.noConfusion hb
  · intro b hb
    rw [he2] at hb
    exact Except.noConfusion hb

/-- Witness for C10: in dbC1 both calls pass every check before the label
step, and the supplied label list "x" is truthy and unparseable. -/
theorem c10_unparseable_label_list_witness :
    (cinC10.labelIdList = some "x" ∧ updC1.labelIdList = some "x" ∧
      "x" ≠ "" ∧ parseOne "x" = none) ∧
    (((∃ e : Err, (create parseOne dbC1 cinC10).1 = .error e) ∧
        ∀ b : Bool, (create parseOne dbC1 cinC10).1 ≠ .ok b) ∧
      ((∃ e : Err, (update parseOne dbC1 updC1).1 = .error e) ∧
        ∀ b : Bool, (update parseOne dbC1 updC1).1 ≠ .ok b)) :=
  ⟨⟨rfl, rfl, by decide, rfl⟩,
    c10_unparseable_label_list parseOne dbC1 cinC10 updC1 "x"
      rfl rfl (by decide) rfl⟩

/-- C3 (counterexample): in dbC3 the target section has one task at
position 1, so the claim demands position 1 + 1 = 2 for the new task; but
the caller supplies position 42 among the remaining fields, and since
`...rest` is spread after `position: maxPosition + 1` in the insert, the
supplied value overrides the computed one: the successful create assigns
position 42. -/
theorem c3_counterexample :
    (create parseOne dbC3 cinC3).1 = .ok true ∧
    ((dbC3.tasks.filter (fun t => t.sectionId == cinC3.sectionId)).map Task.position) = [1] ∧
    ((create parseOne dbC3 cinC3).2.tasks.map Task.position) = [1, 42] ∧
    (42 : Int) ≠ 1 + 1 := by
  refine ⟨rfl, rfl, rfl, by decide⟩

/-- C3 (amended): for every successful create in which the caller supplies
no position field, the new task's position is 1 when the target section
has no tasks, and 1 + the maximum sibling position when the section has a
sibling of maximal position m ≥ 0 (every position the service itself
assigns is positive; the fold's initial accumulator 0 floors an
all-negative maximum, and a caller-supplied position overrides the
computed value entirely). -/
theorem c3_amended_position (parse : String → Option (List Nat)) (db : DB)
    (inp : CreateInput) (hpos : inp.position = none)
    (hok : (create parse db inp).1 = .ok true) :
    ∃ t : Task, (create parse db inp).2.tasks = db.tasks ++ [t] ∧
      ((db.tasks.filter (fun x => x.sectionId == inp.sectionId)) = [] → t.position = 1) ∧
      (∀ m : Int,
        m ∈ (db.tasks.filter (fun x => x.sectionId == inp.sectionId)).map Task.position →
        (∀ q ∈ (db.tasks.filter (fun x => x.sectionId == inp.sectionId)).map Task.position,
          q ≤ m) →
        0 ≤ m → t.position = m + 1) := by
  obtain ⟨t, hteq, htpos⟩ := create_ok_appends parse db inp hok
  rw [hpos, Option.getD_none] at htpos
  refine ⟨t, hteq, ?_, ?_⟩
  · intro hnil
    rw [hnil] at htpos
    simpa using htpos
  · intro m hm hub h0
    rw [htpos]
    have h1 : ((db.tasks.filter (fun x => x.sectionId == inp.sectionId)).map
        Task.position).foldl max 0 = m :=
      le_antisymm (foldl_max_le _ 0 m h0 hub) (mem_le_foldl_max _ 0 m hm)
    rw [List.foldl_map] at h1
    rw [h1]

/-- Witness for the amended C3: create in dbC3 with no supplied position
succeeds; the section's sole sibling has maximal position 1 ≥ 0, and the
new task receives position 2. -/
theorem c3_amended_position_witness :
    (cinW3.position = none ∧ (create parseOne dbC3 cinW3).1 = .ok true) ∧
    (∃ t : Task, (create parseOne dbC3 cinW3).2.tasks = dbC3.tasks ++ [t] ∧
      ((dbC3.tasks.filter (fun x => x.sectionId == cinW3.sectionId)) = [] → t.position = 1) ∧
      (∀ m : Int,
        m ∈ (dbC3.tasks.filter (fun x => x.sectionId == cinW3.sectionId)).map Task.position →
        (∀ q ∈ (dbC3.tasks.filter (fun x => x.sectionId == cinW3.sectionId)).map Task.position,
          q ≤ m) →
        0 ≤ m → t.position = m + 1)) :=
  ⟨⟨rfl, rfl⟩, c3_amended_position parseOne dbC3 cinW3 rfl rfl⟩

/-- C6 (counterexample): in dbC6 both of user 1's not-done tasks have no
sub-tasks, so the order clause — which sorts by the included sub-task
model's position, not the task's own — leaves them in table order: the
returned positions are [5, 3], which is not ascending. -/
theorem c6_counterexample :
    ((retrieveAll dbC6 1).map (fun x => x.task.position)) = [5, 3] ∧
    ¬ ((5 : Int) ≤ 3) := by
  refine ⟨rfl, by decide⟩

/-- C6 (amended): retrieveAll(userId) returns exactly the tasks with
isDone = false whose owning project's creatorId equals userId, each
together with its sub-task rows ordered by position ascending; the
top-level tasks are not, in general, ordered by their own position,
because the order clause targets the included sub-task model. -/
theorem c6_amended_retrieveAll (db : DB) (userId : Nat) :
    (∀ t : Task, (∃ x ∈ retrieveAll db userId, x.task = t) ↔
      (t ∈ db.tasks ∧ t.isDone = false ∧
        ∃ p : Project, findProject db t.projectId = some p ∧ p.creatorId = userId)) ∧
    (∀ x ∈ retrieveAll db userId,
      x.subtasks.Perm (subtaskRows db x.task.id) ∧ x.subtasks.Sorted posLe) := by
  constructor
  · intro t
    constructor
    · rintro ⟨x, hx, rfl⟩
      obtain ⟨u, hu, hxeq⟩ := List.mem_map.mp hx
      rw [List.mem_insertionSort] at hu
      have hmem := List.mem_filter.mp hu
      have hx2 : x.task = u := by rw [← hxeq]
      rw [hx2]
      obtain ⟨h1, h2⟩ := hmem
      have h2' := h2
      unfold ownedNotDone at h2'
      rw [Bool.and_eq_true] at h2'
      obtain ⟨hd, hown⟩ := h2'
      refine ⟨h1, by simpa using hd, ?_⟩
      cases hfp : findProject db u.projectId with
      | none => rw [hfp] at hown; cases hown
      | some p =>
        rw [hfp] at hown
        exact ⟨p, rfl, by simpa using hown⟩
    · rintro ⟨h1, h2, p, hp, hpc⟩
      have hown : ownedNotDone db userId t = true := by
        unfold ownedNotDone
        simp [hp, h2, hpc]
      refine ⟨⟨t, (subtaskRows db t.id).insertionSort posLe⟩, ?_, rfl⟩
      apply List.mem_map_of_mem
      rw [List.mem_insertionSort]
      exact List.mem_filter.mpr ⟨h1, hown⟩
  · intro x hx
    obtain ⟨u, _, hxeq⟩ := List.mem_map.mp hx
    rw [← hxeq]
    exact ⟨List.perm_insertionSort posLe _, List.sorted_insertionSort posLe _⟩

/-- Witness for the amended C6 at the concrete database dbC6. -/
theorem c6_amended_retrieveAll_witness :
    (∀ t : Task, (∃ x ∈ retrieveAll dbC6 1, x.task = t) ↔
      (t ∈ dbC6.tasks ∧ t.isDone = false ∧
        ∃ p : Project, findProject dbC6 t.projectId = some p ∧ p.creatorId = 1)) ∧
    (∀ x ∈ retrieveAll dbC6 1,
      x.subtasks.Perm (subtaskRows dbC6 x.task.id) ∧ x.subtasks.Sorted posLe) :=
  c6_amended_retrieveAll dbC6 1

/-- C4: for every call to retrieveById or update in which the task row
exists but the resolved owning project's creatorId differs from the
requesting userId, the operation fails with the Forbidden status. -/
theorem c4_foreign_task_forbidden (db : DB) (id userId : Nat) (t : Task) (p : Project)
    (parse : String → Option (List Nat)) (inp : UpdateInput)
    (ht : findTask db id = some t) (hp : findProject db t.projectId = some p)
    (hne : p.creatorId ≠ userId) (hid : inp.id = id) (hu : inp.userId = userId) :
    retrieveById db id userId =
        .error ⟨.forbidden, some errorCode.FORBIDDEN_ERROR⟩ ∧
    (update parse db inp).1 =
        .error ⟨.forbidden, some errorCode.FORBIDDEN_ERROR⟩ := by
  have hown := isTaskOwner_eq_false db id userId t p ht hp hne
  constructor
  · unfold retrieveById
    rw [ht, hown]
    rfl
  · unfold update
    rw [hid, hu, ht, hown]
    rfl

/-- Witness for C4 at a concrete database: task 7 belongs to project 5
whose creator is user 2, and user 1 requests it. -/
theorem c4_foreign_task_forbidden_witness :
    (findTask dbW4 7 = some taskW4 ∧
      findProject dbW4 taskW4.projectId = some projW4 ∧
      projW4.creatorId ≠ 1) ∧
    (retrieveById dbW4 7 1 =
        .error ⟨.forbidden, some errorCode.FORBIDDEN_ERROR⟩ ∧
      (update parseOne dbW4 updW4).1 =
        .error ⟨.forbidden, some errorCode.FORBIDDEN_ERROR⟩) :=
  ⟨⟨by decide, by decide, by decide⟩,
    c4_foreign_task_forbidden dbW4 7 1 taskW4 projW4 parseOne updW4
      (by decide) (by decide) (by decide) (by decide) (by decide)⟩

/-- C5: remove deletes the task row by id unconditionally, with no
ownership or existence check and no error, and returns the number of
deleted rows: 1 when a task with that id exists, 0 when none does. -/
theorem c5_remove_by_id (db : DB) (i : Nat) (hnd : (db.tasks.map Task.id).Nodup) :
    ((∃ t ∈ db.tasks, t.id = i) → (remove db i).1 = 1) ∧
    ((¬ ∃ t ∈ db.tasks, t.id = i) → (remove db i).1 = 0) ∧
    (∀ t : Task, t ∈ (remove db i).2.tasks ↔ (t ∈ db.tasks ∧ t.id ≠ i)) := by
  refine ⟨?_, ?_, ?_⟩
  · rintro ⟨t, htl, hid⟩
    exact length_filter_id_eq_one hnd htl hid
  · intro h
    have hnil : db.tasks.filter (fun x => x.id == i) = [] := by
      apply List.filter_eq_nil_iff.mpr
      intro x hx hxi
      exact h ⟨x, hx, by simpa using hxi⟩
    show (db.tasks.filter (fun x => x.id == i)).length = 0
    simp [hnil]
  · intro t
    show t ∈ db.tasks.filter (fun x => x.id != i) ↔ _
    simp [List.mem_filter, bne_iff_ne]

/-- Witness for C5 at a concrete two-row database with distinct ids. -/
theorem c5_remove_by_id_witness :
    (dbW5.tasks.map Task.id).Nodup ∧
    (((∃ t ∈ dbW5.tasks, t.id = 1) → (remove dbW5 1).1 = 1) ∧
     ((¬ ∃ t ∈ dbW5.tasks, t.id = 1) → (remove dbW5 1).1 = 0) ∧
     (∀ t : Task, t ∈ (remove dbW5 1).2.tasks ↔ (t ∈ dbW5.tasks ∧ t.id ≠ 1))) :=
  ⟨by decide, c5_remove_by_id dbW5 1 (by decide)⟩

/-- C7: when the authorize call fails, checkUser alerts the login-failure
message, ends with navigation to /login, and commits no user fields (the
store state is exactly what it was). -/
theorem c7_checkUser_failure (s : StoreState) (path : String) :
    (checkUser .failure s path).path = "/login" ∧
    (checkUser .failure s path).state = s ∧
    (checkUser .failure s path).alerts = [loginFailureAlert] :=
  ⟨rfl, rfl, rfl⟩

/-- C8: when the authorize call succeeds, checkUser commits exactly the
normalized user fields id, name, email into the state, raises no alert,
and navigates to /today when the current path is / or /login and to the
current path otherwise. -/
theorem c8_checkUser_success (u : User) (s : StoreState) (path : String) :
    (checkUser (.success u) s path).state.user =
        ({ id := u.id, name := u.name, email := u.email } : User) ∧
    (checkUser (.success u) s path).alerts = [] ∧
    (checkUser (.success u) s path).path =
      (if path = "/" ∨ path = "/login" then "/today" else path) := by
  by_cases hp : path = "/" ∨ path = "/login"
  · have hb : (path == "/" || path == "/login") = true := by
      rcases hp with h | h <;> simp [h]
    simp [checkUser, SET_USER, hb, hp]
  · have h1 : path ≠ "/" := fun h => hp (Or.inl h)
    have h2 : path ≠ "/login" := fun h => hp (Or.inr h)
    have hb : (path == "/" || path == "/login") = false := by
      simp [h1, h2]
    simp [checkUser, SET_USER, hb, hp]

end HalgoraeDO
